import Mathlib

/-
  Verification development for the FluxEngine job-processing pipeline.

  Shallow embedding of the Go sources:
  * internal/models/job.go        — Job value object and identifier generation
  * internal/handler/job_handler.go — admission validation in HandleSubmitJob
  * internal/worker (worker.go)   — processJob dispatch, the two task executors
                                    and computeStatistics

  Conventions of the embedding:
  * Go `float64` values are modelled exactly as rationals (`ℚ`); every
    computation the claims mention (sums, means, medians, percentile
    selection, comparisons, truncating conversions) is exact on the values
    used, so the rational model agrees with the float semantics there.
    The source also derives `std_dev = math.Sqrt(variance)`; the square
    root is kept as a separate derived (noncomputable) accessor since it
    is irrational in general and no claim mentions it.
  * Go `map[string]interface{}` payloads are association lists with
    first-match lookup; a `nil` map is `Option.none` (reads succeed and
    report absence, writes panic, as in Go).
  * Panics (negative-length `make`, out-of-range slice indexing,
    assignment to an entry of a nil map) are modelled as explicit panic
    outcomes, distinct from Go `error` returns.
  * The bcrypt library (golang.org/x/crypto/bcrypt) is not part of this
    repository; it is modelled abstractly by its documented contract.
  * Quoted field names inside source error strings are elided
    (for example the source text Missing password field).
-/

namespace FluxEngine

/-- A Go runtime value as it appears in a decoded JSON payload.
JSON numbers decode to `float64` (`num`); the handler separately stores a
Go `int` default (`goInt`), which does NOT satisfy a `.(float64)` type
assertion — the distinction is observable in the worker and is kept. -/
inductive GoValue where
  | str (s : String)
  | num (q : ℚ)
  | goInt (n : ℤ)
  | boolean (b : Bool)
  | null
  deriving DecidableEq

/-- A non-nil Go `map[string]interface{}`: an association list with
first-match lookup. -/
abbrev GoMap := List (String × GoValue)

/-- Reading `m[k]` with the comma-ok idiom. Reading from a nil map
(`none`) is legal in Go and reports absence. -/
def mapLookup (m : Option GoMap) (k : String) : Option GoValue :=
  match m with
  | none => none
  | some l => l.lookup k

/-- Writing `m[k] = v` on a non-nil map: the new binding shadows any
previous one under first-match lookup. -/
def mapSet (m : GoMap) (k : String) (v : GoValue) : GoMap :=
  (k, v) :: m

/-- Go `int(f)` conversion from `float64`: truncation toward zero
(defined here for the in-range values the claims exercise). -/
def goTrunc (q : ℚ) : ℤ :=
  if q < 0 then -⌊-q⌋ else ⌊q⌋

/-- Outcome of running a piece of Go code that can return an error or
panic. `panicked` is an unrecovered runtime panic, which in the worker
goroutine crashes the whole loop; it is distinct from an `error` value. -/
inductive Exec (α : Type) where
  | ok (a : α)
  | err (msg : String)
  | panicked (msg : String)
  deriving DecidableEq

/-- Map over the payload of a successful outcome. -/
def Exec.map {α β : Type} (f : α → β) : Exec α → Exec β
  | Exec.ok a => Exec.ok (f a)
  | Exec.err m => Exec.err m
  | Exec.panicked m => Exec.panicked m

/- ## Statistics Engine (worker computeStatistics) -/

/-- The named numeric measures of the statistics result map, for a
non-empty dataset. The source map also carries
std_dev = math.Sqrt(variance); see `stdDev` below. -/
structure StatsRecord where
  count : ℕ
  sum : ℚ
  mean : ℚ
  variance : ℚ
  min : ℚ
  max : ℚ
  median : ℚ
  p25 : ℚ
  p75 : ℚ
  p95 : ℚ
  p99 : ℚ
  range : ℚ
  deriving DecidableEq

/-- The derived standard deviation field of the source result map,
`math.Sqrt(variance)`. No claim refers to it; it is irrational in
general, hence kept as a separate real-valued accessor. -/
noncomputable def stdDev (r : StatsRecord) : ℝ :=
  Real.sqrt (r.variance : ℝ)

/-- Result of computeStatistics: for an empty dataset the source returns
a map holding only an error entry (the empty-dataset marker); otherwise
the full record of measures. -/
inductive StatsResult where
  | emptyDataset
  | stats (r : StatsRecord)
  deriving DecidableEq

/-- Go slice indexing `l[i]`: out of range is a runtime panic, modelled
as `none`. -/
def goIndex (l : List ℚ) (i : ℕ) : Option ℚ :=
  l.get? i

/-- The sorted copy made by the source:
`sortedData := make([]float64, n); copy(sortedData, data);
sort.Float64s(sortedData)`. `sort.Float64s` produces the unique
ascending reordering of the data, realised here by insertion sort. -/
def goSortCopy (data : List ℚ) : List ℚ :=
  List.insertionSort (· ≤ ·) data

/-- Shallow embedding of worker computeStatistics. Mirrors the source
statement by statement: sum and mean in one pass, population variance
(divisor n) in a second pass, min and max by a scan starting from
data[0], then median and the four percentiles by rank-index selection on
the sorted copy. `none` means the Go code would panic (it never does on
the indices used, see the bounds theorems below). -/
def computeStatistics (data : List ℚ) : Option StatsResult :=
  let n := data.length
  if n = 0 then some StatsResult.emptyDataset
  else do
    let sum := data.foldl (fun acc v => acc + v) 0
    let mean := sum / (n : ℚ)
    let varianceSum := data.foldl (fun acc v => acc + (v - mean) * (v - mean)) 0
    let variance := varianceSum / (n : ℚ)
    let d0 ← goIndex data 0
    let mn := data.foldl (fun m v => if v < m then v else m) d0
    let mx := data.foldl (fun m v => if m < v then v else m) d0
    let sortedData := goSortCopy data
    let mid ← goIndex sortedData (n / 2)
    let median ←
      if n % 2 = 0 then do
        let lo ← goIndex sortedData (n / 2 - 1)
        pure ((lo + mid) / 2)
      else pure mid
    let q25 ← goIndex sortedData (n / 4)
    let q75 ← goIndex sortedData (3 * n / 4)
    let q95 ← goIndex sortedData (95 * n / 100)
    let q99 ← goIndex sortedData (99 * n / 100)
    pure (StatsResult.stats
      { count := n, sum := sum, mean := mean, variance := variance
        min := mn, max := mx, median := median
        p25 := q25, p75 := q75, p95 := q95, p99 := q99
        range := mx - mn })

/-- The record computeStatistics produces on a non-empty dataset,
written with total indexing (`getD`); `computeStatistics_eq` below
proves the two agree, which also shows the source never panics. -/
def statsRecordOf (data : List ℚ) : StatsRecord :=
  let n := data.length
  let sum := data.foldl (fun acc v => acc + v) 0
  let mean := sum / (n : ℚ)
  let varianceSum := data.foldl (fun acc v => acc + (v - mean) * (v - mean)) 0
  let d0 := data.getD 0 0
  let s := goSortCopy data
  { count := n
    sum := sum
    mean := mean
    variance := varianceSum / (n : ℚ)
    min := data.foldl (fun m v => if v < m then v else m) d0
    max := data.foldl (fun m v => if m < v then v else m) d0
    median :=
      if n % 2 = 0 then (s.getD (n / 2 - 1) 0 + s.getD (n / 2) 0) / 2
      else s.getD (n / 2) 0
    p25 := s.getD (n / 4) 0
    p75 := s.getD (3 * n / 4) 0
    p95 := s.getD (95 * n / 100) 0
    p99 := s.getD (99 * n / 100) 0
    range := data.foldl (fun m v => if m < v then v else m) d0 -
      data.foldl (fun m v => if v < m then v else m) d0 }

/-- The caller-level view of a computeStatistics call: the result
together with the caller's slice after the call. Every mutation in the
source body targets `sortedData`, the freshly allocated copy, never the
`data` argument, so the caller's slice comes back untouched. -/
def computeStatisticsCall (data : List ℚ) : Option StatsResult × List ℚ :=
  (computeStatistics data, data)

theorem length_goSortCopy (data : List ℚ) :
    (goSortCopy data).length = data.length :=
  (List.perm_insertionSort _ data).length_eq

theorem goIndex_eq_some_getD (l : List ℚ) (i : ℕ) (h : i < l.length) :
    goIndex l i = some (l.getD i 0) := by
  rw [goIndex, List.get?_eq_getElem?]
  simp [List.getElem?_eq_getElem h, List.getD_eq_getElem?_getD]

/-- On a non-empty dataset computeStatistics succeeds and produces
exactly the record `statsRecordOf`. -/
theorem computeStatistics_eq (data : List ℚ) (h : data ≠ []) :
    computeStatistics data = some (StatsResult.stats (statsRecordOf data)) := by
  have hn : 0 < data.length := List.length_pos.mpr h
  have hs : (goSortCopy data).length = data.length := length_goSortCopy data
  rw [computeStatistics, statsRecordOf]
  simp only [if_neg (by omega : ¬ data.length = 0)]
  rw [goIndex_eq_some_getD data 0 (by omega),
    goIndex_eq_some_getD _ (data.length / 2) (by omega),
    goIndex_eq_some_getD _ (data.length / 4) (by omega),
    goIndex_eq_some_getD _ (3 * data.length / 4) (by omega),
    goIndex_eq_some_getD _ (95 * data.length / 100) (by omega),
    goIndex_eq_some_getD _ (99 * data.length / 100) (by omega)]
  by_cases hpar : data.length % 2 = 0
  · rw [if_pos hpar, goIndex_eq_some_getD _ (data.length / 2 - 1) (by omega)]
    simp [Option.bind, hpar]
  · rw [if_neg hpar]
    simp [Option.bind, hpar]

/- ## Task Executor: password hashing (worker processPasswordHash) -/

/-- Abstract model of a bcrypt hash value. The library
golang.org/x/crypto/bcrypt is a third-party dependency, not code of this
repository; a hash is modelled by what the library guarantees about it:
it encodes the cost and is verifiable against exactly the password it
was derived from (the salt and digest bytes are opaque here). -/
structure BcryptHash where
  cost : ℤ
  source : String
  deriving DecidableEq

/-- Model of bcrypt.GenerateFromPassword: fails on passwords longer than
72 bytes, otherwise produces a salted hash. The worker always supplies a
cost inside [4,31], for which the library does not error. -/
def bcryptGenerateFromPassword (password : String) (cost : ℤ) :
    Except String BcryptHash :=
  if 72 < password.utf8ByteSize then
    Except.error "password length exceeds 72 bytes"
  else
    Except.ok { cost := cost, source := password }

/-- A bcrypt hash string is always 60 bytes long. -/
def bcryptHashLen (_ : BcryptHash) : ℕ := 60

/-- Model of bcrypt.CompareHashAndPassword: succeeds exactly when the
password is the one the hash was derived from. -/
def bcryptCompareHashAndPassword (h : BcryptHash) (password : String) : Bool :=
  h.source == password

/-- The result map of a successful password_hash job. -/
structure HashResult where
  hash_length : ℕ
  cost : ℤ
  algorithm : String
  verified : Bool
  deriving DecidableEq

/-- The effective bcrypt cost chosen by processPasswordHash:
`cost := bcrypt.DefaultCost (10)`, overridden by a float64 payload field
`cost` converted with `int(...)`, and reset to the default when the
converted value falls outside [4,31]. -/
def effectiveCost (payload : Option GoMap) : ℤ :=
  match mapLookup payload "cost" with
  | some (GoValue.num costVal) =>
    let c := goTrunc costVal
    if c < 4 ∨ 31 < c then 10 else c
  | _ => 10

/-- Shallow embedding of worker processPasswordHash: requires a string
password (anything else is the error invalid password field), hashes it
with the effective cost, re-verifies the fresh hash, and on success
reports length and metadata with verified = true. -/
def processPasswordHash (payload : Option GoMap) : Exec HashResult :=
  match mapLookup payload "password" with
  | some (GoValue.str password) =>
    let cost := effectiveCost payload
    match bcryptGenerateFromPassword password cost with
    | Except.error e => Exec.err ("bcrypt hashing failed: " ++ e)
    | Except.ok hashedPassword =>
      if bcryptCompareHashAndPassword hashedPassword password then
        Exec.ok { hash_length := bcryptHashLen hashedPassword
                  cost := cost
                  algorithm := "bcrypt"
                  verified := true }
      else Exec.err "hash verification failed"
  | _ => Exec.err "invalid password field"

/- ## Task Executor: report generation (worker processReportGeneration) -/

/-- The effective number of data points: default 1,000,000 unless the
payload carries a float64 `data_points` field (converted with
`int(...)`), then capped at 10,000,000. -/
def effectiveDataPoints (payload : Option GoMap) : ℤ :=
  let dataPoints : ℤ :=
    match mapLookup payload "data_points" with
    | some (GoValue.num dpVal) => goTrunc dpVal
    | _ => 1000000
  if 10000000 < dataPoints then 10000000 else dataPoints

/-- Shallow embedding of worker processReportGeneration. The dataset
draws are abstracted by `gen` (the source draws each value in [0,1000)
from crypto/rand, falling back to a time-derived value for a failed
draw; either way every draw yields a value and the control flow does not
depend on which). `make([]float64, dataPoints)` panics when the count is
negative, which is an unrecovered runtime panic, not an error return. -/
def processReportGeneration (gen : ℕ → ℚ) (payload : Option GoMap) :
    Exec StatsResult :=
  let dataPoints := effectiveDataPoints payload
  if dataPoints < 0 then Exec.panicked "makeslice: len out of range"
  else
    let dataset := (List.range dataPoints.toNat).map gen
    match computeStatistics dataset with
    | none => Exec.panicked "index out of range"
    | some stats => Exec.ok stats

/- ## Job model (internal/models/job.go) -/

/-- The alphabet used for the random suffix of a job identifier. -/
def letters : String := "abcdefghijklmnopqrstuvwxyz0123456789"

/-- Model of models.randString: byte i is
`letters[(time.Now().UnixNano()+int64(i)) % int64(len(letters))]`.
Each byte re-reads the clock; `nanos i` is the i-th UnixNano reading
(always non-negative, hence a natural number). The suffix is therefore a
function of the clock readings alone, not of an independent random
source. -/
def randString (nanos : ℕ → ℕ) (n : ℕ) : String :=
  String.mk ((List.range n).map
    (fun i => letters.toList.getD ((nanos i + i) % letters.length) ' '))

/-- Model of models.generateJobID: the 14-digit second-resolution
creation timestamp (`timestamp`), a dash, and a 6-byte suffix derived
from the nanosecond clock readings. -/
def generateJobID (timestamp : String) (nanos : ℕ → ℕ) : String :=
  timestamp ++ "-" ++ randString nanos 6

/-- The Job value object. `created_at` is the timestamp the identifier
prefix is rendered from; the clock inputs of the identifier are made
explicit. -/
structure Job where
  id : String
  type : String
  payload : Option GoMap
  status : String
  deriving DecidableEq

/-- Model of models.NewJob: a fresh job with a generated identifier and
status pending. -/
def NewJob (jobType : String) (payload : Option GoMap)
    (timestamp : String) (nanos : ℕ → ℕ) : Job :=
  { id := generateJobID timestamp nanos
    type := jobType
    payload := payload
    status := "pending" }

/- ## Worker (worker processJob and the loop in Start) -/

/-- The result value a completed job reports. -/
inductive ExecValue where
  | hash (r : HashResult)
  | report (r : StatsResult)
  deriving DecidableEq

/-- Shallow embedding of worker processJob: set status processing,
dispatch on the job type (unknown types yield an error), then set the
terminal status: completed on success, failed on an error. An
unrecovered panic escapes before any terminal status is written. -/
def processJob (gen : ℕ → ℚ) (job : Job) : Job × Exec ExecValue :=
  let running : Job := { job with status := "processing" }
  let outcome : Exec ExecValue :=
    if running.type = "password_hash" then
      Exec.map ExecValue.hash (processPasswordHash running.payload)
    else if running.type = "report_generation" then
      Exec.map ExecValue.report (processReportGeneration gen running.payload)
    else
      Exec.err ("unknown job type: " ++ running.type)
  match outcome with
  | Exec.ok r => ({ running with status := "completed" }, Exec.ok r)
  | Exec.err m => ({ running with status := "failed" }, Exec.err m)
  | Exec.panicked m => (running, Exec.panicked m)

/-- The worker loop of Worker.Start over a finite intake of jobs:
processes them in order; an error outcome is logged and the loop
continues, but an unrecovered panic crashes the goroutine (the Boolean
flag), so later jobs are never processed. -/
def workerLoop (gen : ℕ → ℚ) : List Job → List (Job × Exec ExecValue) × Bool
  | [] => ([], false)
  | job :: rest =>
    match processJob gen job with
    | (j, Exec.panicked m) => ([(j, Exec.panicked m)], true)
    | (j, o) =>
      let next := workerLoop gen rest
      ((j, o) :: next.1, next.2)

/- ## Dispatcher admission (handler HandleSubmitJob) -/

/-- Outcome of the admission phase of HandleSubmitJob, after the JSON
envelope is decoded: a 400 response (no job is constructed or enqueued),
a runtime panic inside the handler (the request dies with no response),
or a job offered to the queue with the given type and payload. Whether
an offered job wins the non-blocking hand-off (202) or is rejected on
contention (503) is a scheduling race outside this embedding. -/
inductive Admission where
  | badRequest (msg : String)
  | handlerPanic (msg : String)
  | accepted (jobType : String) (payload : Option GoMap)
  deriving DecidableEq

/-- Shallow embedding of the validation in HandleSubmitJob (lines
56-75): unknown types are rejected; password_hash requires the
`password` key to be PRESENT (its type is not inspected here);
report_generation with an absent `data_points` key stores the Go int
default 1000000 into the payload map — a write that panics when the
payload object was absent (nil map). -/
def handleSubmitJob (reqType : String) (payload : Option GoMap) : Admission :=
  if reqType ≠ "password_hash" ∧ reqType ≠ "report_generation" then
    Admission.badRequest "Invalid job type. Use password_hash or report_generation"
  else if reqType = "password_hash" then
    match mapLookup payload "password" with
    | none => Admission.badRequest "Missing password field in payload"
    | some _ => Admission.accepted reqType payload
  else
    match mapLookup payload "data_points" with
    | some _ => Admission.accepted reqType payload
    | none =>
      match payload with
      | none => Admission.handlerPanic "assignment to entry in nil map"
      | some m =>
        Admission.accepted reqType (some (mapSet m "data_points" (GoValue.goInt 1000000)))

/- ## Shared lemmas -/

theorem get?_eq_some_getD (l : List ℚ) (i : ℕ) (h : i < l.length) :
    l.get? i = some (l.getD i 0) :=
  goIndex_eq_some_getD l i h

/-- A dataset on which computeStatistics yields a stats record is
non-empty. -/
theorem computeStatistics_ok_ne_nil (data : List ℚ) (r : StatsRecord)
    (h : computeStatistics data = some (StatsResult.stats r)) : data ≠ [] := by
  intro hd
  rw [hd] at h
  simp [computeStatistics] at h

/-- The record computeStatistics yields is exactly `statsRecordOf`. -/
theorem computeStatistics_stats_eq (data : List ℚ) (r : StatsRecord)
    (h : computeStatistics data = some (StatsResult.stats r)) :
    r = statsRecordOf data := by
  have hr : StatsResult.stats r = StatsResult.stats (statsRecordOf data) :=
    Option.some.inj
      (h.symm.trans (computeStatistics_eq data (computeStatistics_ok_ne_nil data r h)))
  injection hr

/- ## Claims -/

/-- Claim C10: on every non-empty dataset of n floats every index
computeStatistics uses for the median and percentiles — n/2, n/4, 3n/4,
95n/100, 99n/100, and n/2-1 for even n — is inside the sorted copy, so
the function is total on non-empty inputs and never panics. -/
theorem C10_theorem (data : List ℚ) (h : data ≠ []) :
    (∃ r, computeStatistics data = some (StatsResult.stats r)) ∧
    data.length / 2 < data.length ∧
    data.length / 4 < data.length ∧
    3 * data.length / 4 < data.length ∧
    95 * data.length / 100 < data.length ∧
    99 * data.length / 100 < data.length ∧
    (data.length % 2 = 0 → 1 ≤ data.length / 2) := by
  have hn : 0 < data.length := List.length_pos.mpr h
  exact ⟨⟨_, computeStatistics_eq data h⟩,
    by omega, by omega, by omega, by omega, by omega, by omega⟩

theorem C10_witness :
    (∃ r, computeStatistics [1, 2] = some (StatsResult.stats r)) ∧
    ([1, 2] : List ℚ).length / 2 < ([1, 2] : List ℚ).length ∧
    ([1, 2] : List ℚ).length / 4 < ([1, 2] : List ℚ).length ∧
    3 * ([1, 2] : List ℚ).length / 4 < ([1, 2] : List ℚ).length ∧
    95 * ([1, 2] : List ℚ).length / 100 < ([1, 2] : List ℚ).length ∧
    99 * ([1, 2] : List ℚ).length / 100 < ([1, 2] : List ℚ).length ∧
    1 ≤ ([1, 2] : List ℚ).length / 2 :=
  have t := C10_theorem [1, 2] (by decide)
  ⟨t.1, t.2.1, t.2.2.1, t.2.2.2.1, t.2.2.2.2.1, t.2.2.2.2.2.1,
    t.2.2.2.2.2.2 (by decide)⟩

/-- Claim C8: computeStatistics preserves the caller's input sequence:
the slice handed back to the caller is element-for-element the input,
and the median/percentile selection happens on a sorted copy — a sorted
permutation of the data. -/
theorem C8_theorem (data : List ℚ) :
    (computeStatisticsCall data).2 = data ∧
    (computeStatisticsCall data).1 = computeStatistics data ∧
    (goSortCopy data).Perm data ∧
    List.Sorted (· ≤ ·) (goSortCopy data) :=
  ⟨rfl, rfl, List.perm_insertionSort _ _, List.sorted_insertionSort _ _⟩

/-- Claim C6: computeStatistics is a pure function of the input
sequence (determinism is by construction); on [1,2,3,4,5] it returns
mean 3, min 1, max 5, median 3 and range 4; the median is the mean of
the two middle sorted values for even n and the sorted value at the
integer-division index n/2 for odd n; and the empty dataset yields
exactly the empty-dataset marker, which carries no computed fields. -/
theorem C6_theorem :
    (computeStatistics [1, 2, 3, 4, 5] =
        some (StatsResult.stats (statsRecordOf [1, 2, 3, 4, 5])) ∧
      (statsRecordOf [1, 2, 3, 4, 5]).mean = 3 ∧
      (statsRecordOf [1, 2, 3, 4, 5]).min = 1 ∧
      (statsRecordOf [1, 2, 3, 4, 5]).max = 5 ∧
      (statsRecordOf [1, 2, 3, 4, 5]).median = 3 ∧
      (statsRecordOf [1, 2, 3, 4, 5]).range = 4) ∧
    (∀ (data : List ℚ) (r : StatsRecord),
      computeStatistics data = some (StatsResult.stats r) →
        (data.length % 2 = 0 →
          r.median = ((goSortCopy data).getD (data.length / 2 - 1) 0 +
            (goSortCopy data).getD (data.length / 2) 0) / 2) ∧
        (data.length % 2 ≠ 0 →
          r.median = (goSortCopy data).getD (data.length / 2) 0)) ∧
    computeStatistics [] = some StatsResult.emptyDataset := by
  refine ⟨⟨computeStatistics_eq _ (by decide), ?_, ?_, ?_, ?_, ?_⟩, ?_, rfl⟩
  · norm_num [statsRecordOf, goSortCopy]
  · norm_num [statsRecordOf, goSortCopy]
  · norm_num [statsRecordOf, goSortCopy]
  · norm_num [statsRecordOf, goSortCopy]
  · norm_num [statsRecordOf, goSortCopy]
  · intro data r h
    have hr := computeStatistics_stats_eq data r h
    subst hr
    constructor
    · intro hpar
      simp [statsRecordOf, hpar]
    · intro hpar
      simp [statsRecordOf, hpar]

theorem C6_witness :
    (statsRecordOf [1, 2]).median =
      ((goSortCopy [1, 2]).getD (([1, 2] : List ℚ).length / 2 - 1) 0 +
        (goSortCopy [1, 2]).getD (([1, 2] : List ℚ).length / 2) 0) / 2 ∧
    (statsRecordOf [1, 2, 3]).median =
      (goSortCopy [1, 2, 3]).getD (([1, 2, 3] : List ℚ).length / 2) 0 :=
  ⟨(C6_theorem.2.1 [1, 2] (statsRecordOf [1, 2])
      (computeStatistics_eq _ (by decide))).1 (by decide),
    (C6_theorem.2.1 [1, 2, 3] (statsRecordOf [1, 2, 3])
      (computeStatistics_eq _ (by decide))).2 (by decide)⟩

/-- Claim C5 (amended): the four percentiles are selected by nearest
rank at index floor(p*n/100) on the sorted copy, and so is the median
for odd n; for even n, however, the median interpolates (the mean of the
two middle sorted values), so selection-without-interpolation does not
extend to the median there. For the sorted 100-element dataset 1..100,
p25 is the value at 0-based index 25, namely 26. -/
theorem C5_theorem (data : List ℚ) (r : StatsRecord)
    (h : computeStatistics data = some (StatsResult.stats r)) :
    ((goSortCopy data).get? (25 * data.length / 100) = some r.p25 ∧
      (goSortCopy data).get? (75 * data.length / 100) = some r.p75 ∧
      (goSortCopy data).get? (95 * data.length / 100) = some r.p95 ∧
      (goSortCopy data).get? (99 * data.length / 100) = some r.p99 ∧
      (data.length % 2 = 1 →
        (goSortCopy data).get? (50 * data.length / 100) = some r.median)) ∧
    (statsRecordOf ((List.range 100).map (fun i => ((i + 1 : ℕ) : ℚ)))).p25 = 26 := by
  have hne : data ≠ [] := computeStatistics_ok_ne_nil data r h
  have hn : 0 < data.length := List.length_pos.mpr hne
  have hs : (goSortCopy data).length = data.length := length_goSortCopy data
  have hr := computeStatistics_stats_eq data r h
  subst hr
  refine ⟨⟨?_, ?_, ?_, ?_, ?_⟩, by decide⟩
  · rw [show 25 * data.length / 100 = data.length / 4 by omega,
      get?_eq_some_getD _ _ (by omega)]
    simp [statsRecordOf]
  · rw [show 75 * data.length / 100 = 3 * data.length / 4 by omega,
      get?_eq_some_getD _ _ (by omega)]
    simp [statsRecordOf]
  · rw [get?_eq_some_getD _ _ (by omega)]
    simp [statsRecordOf]
  · rw [get?_eq_some_getD _ _ (by omega)]
    simp [statsRecordOf]
  · intro hodd
    rw [show 50 * data.length / 100 = data.length / 2 by omega,
      get?_eq_some_getD _ _ (by omega)]
    simp [statsRecordOf, Nat.mod_two_ne_zero.mpr hodd]

theorem C5_witness :
    (goSortCopy [1, 2, 3]).get? (25 * ([1, 2, 3] : List ℚ).length / 100) =
      some (statsRecordOf [1, 2, 3]).p25 ∧
    (goSortCopy [1, 2, 3]).get? (75 * ([1, 2, 3] : List ℚ).length / 100) =
      some (statsRecordOf [1, 2, 3]).p75 ∧
    (goSortCopy [1, 2, 3]).get? (95 * ([1, 2, 3] : List ℚ).length / 100) =
      some (statsRecordOf [1, 2, 3]).p95 ∧
    (goSortCopy [1, 2, 3]).get? (99 * ([1, 2, 3] : List ℚ).length / 100) =
      some (statsRecordOf [1, 2, 3]).p99 ∧
    (goSortCopy [1, 2, 3]).get? (50 * ([1, 2, 3] : List ℚ).length / 100) =
      some (statsRecordOf [1, 2, 3]).median ∧
    (statsRecordOf ((List.range 100).map (fun i => ((i + 1 : ℕ) : ℚ)))).p25 = 26 :=
  have t := C5_theorem [1, 2, 3] (statsRecordOf [1, 2, 3])
    (computeStatistics_eq _ (by decide))
  ⟨t.1.1, t.1.2.1, t.1.2.2.1, t.1.2.2.2.1, t.1.2.2.2.2 (by decide), t.2⟩

/-- Claim C5, the claim as frozen, is false: on the even-length dataset
[1,2,3,4] the median is 5/2, obtained by interpolation, and differs from
the nearest-rank value 3 at index floor(50*4/100) = 2 of the sorted
copy. -/
theorem C5_counterexample :
    computeStatistics [1, 2, 3, 4] =
      some (StatsResult.stats (statsRecordOf [1, 2, 3, 4])) ∧
    (statsRecordOf [1, 2, 3, 4]).median = 5 / 2 ∧
    (goSortCopy [1, 2, 3, 4]).get? (50 * 4 / 100) = some 3 ∧
    ((5 : ℚ) / 2) ≠ 3 := by
  refine ⟨computeStatistics_eq _ (by decide), ?_, by decide, by norm_num⟩
  norm_num [statsRecordOf, goSortCopy]

/-- Claim C3 (amended): a report_generation job whose generated dataset
is empty ends with terminal status completed, not failed: the
empty-dataset condition is only a marker entry in the result map, the
executor returns no error, and nothing is propagated to the HTTP caller
(the response was sent at admission). -/
theorem C3_theorem (gen : ℕ → ℚ) (job : Job)
    (ht : job.type = "report_generation")
    (hd : mapLookup job.payload "data_points" = some (GoValue.num 0)) :
    (processJob gen job).1.status = "completed" ∧
    (processJob gen job).2 = Exec.ok (ExecValue.report StatsResult.emptyDataset) := by
  have hrg : processReportGeneration gen job.payload =
      Exec.ok StatsResult.emptyDataset := by
    have hzero : goTrunc 0 = 0 := by decide
    simp [processReportGeneration, effectiveDataPoints, hd, hzero, computeStatistics]
  constructor <;> simp [processJob, ht, hrg, Exec.map]

theorem C3_witness :
    (processJob (fun _ => 0)
        { id := "w3", type := "report_generation",
          payload := some [("data_points", GoValue.num 0)],
          status := "pending" }).1.status = "completed" ∧
    (processJob (fun _ => 0)
        { id := "w3", type := "report_generation",
          payload := some [("data_points", GoValue.num 0)],
          status := "pending" }).2 =
      Exec.ok (ExecValue.report StatsResult.emptyDataset) :=
  C3_theorem (fun _ => 0)
    { id := "w3", type := "report_generation",
      payload := some [("data_points", GoValue.num 0)], status := "pending" }
    rfl (by decide)

/-- Claim C3, the claim as frozen, is false: a report_generation job
submitted with data_points = 0 produces an empty dataset, yet its
terminal status is completed — not failed — with the marker inside the
successful result value. -/
theorem C3_counterexample :
    (processJob (fun _ => 0)
        { id := "c3", type := "report_generation",
          payload := some [("data_points", GoValue.num 0)],
          status := "pending" }).1.status = "completed" ∧
    (processJob (fun _ => 0)
        { id := "c3", type := "report_generation",
          payload := some [("data_points", GoValue.num 0)],
          status := "pending" }).2 =
      Exec.ok (ExecValue.report StatsResult.emptyDataset) ∧
    ("completed" : String) ≠ "failed" := by
  refine ⟨by decide, by decide, by decide⟩

/-- Claim C4: absent data_points with a PRESENT payload object defaults
to the Go int 1000000 (whose effective count in the worker is
1,000,000), and the effective count is always capped at 10,000,000; but
when the payload object itself is absent the defaulting write hits a nil
map and the handler panics instead of accepting — the failing input of
the recorded code bug. -/
theorem C4_theorem :
    handleSubmitJob "report_generation" none =
      Admission.handlerPanic "assignment to entry in nil map" ∧
    handleSubmitJob "report_generation" (some []) =
      Admission.accepted "report_generation"
        (some [("data_points", GoValue.goInt 1000000)]) ∧
    effectiveDataPoints (some [("data_points", GoValue.goInt 1000000)]) = 1000000 ∧
    (∀ payload : Option GoMap, effectiveDataPoints payload ≤ 10000000) := by
  refine ⟨by decide, by decide, by decide, ?_⟩
  intro payload
  have hclamp : ∀ d : ℤ, (if 10000000 < d then 10000000 else d) ≤ 10000000 := by
    intro d
    split <;> omega
  exact hclamp _

/-- Claim C2: a job whose executor returns an error is marked failed and
the loop continues to later jobs; but a report_generation job with the
integer payload value data_points = -1 makes `make([]float64, -1)` panic,
which crashes the worker loop before any later job runs — the failing
input of the recorded code bug. -/
theorem C2_theorem :
    (processJob (fun _ => 0)
        { id := "j1", type := "report_generation",
          payload := some [("data_points", GoValue.num (-1))],
          status := "pending" }).2 =
      Exec.panicked "makeslice: len out of range" ∧
    workerLoop (fun _ => 0)
        [{ id := "j1", type := "report_generation",
           payload := some [("data_points", GoValue.num (-1))],
           status := "pending" },
         { id := "j2", type := "password_hash",
           payload := some [("password", GoValue.str "abc123")],
           status := "pending" }] =
      ([({ id := "j1", type := "report_generation",
           payload := some [("data_points", GoValue.num (-1))],
           status := "processing" },
         Exec.panicked "makeslice: len out of range")], true) ∧
    workerLoop (fun _ => 0)
        [{ id := "j3", type := "password_hash",
           payload := some [("password", GoValue.num 1)],
           status := "pending" },
         { id := "j2", type := "password_hash",
           payload := some [("password", GoValue.str "abc123")],
           status := "pending" }] =
      ([({ id := "j3", type := "password_hash",
           payload := some [("password", GoValue.num 1)],
           status := "failed" },
         Exec.err "invalid password field"),
        ({ id := "j2", type := "password_hash",
           payload := some [("password", GoValue.str "abc123")],
           status := "completed" },
         Exec.ok (ExecValue.hash
           { hash_length := 60, cost := 10, algorithm := "bcrypt",
             verified := true }))], false) := by
  refine ⟨by decide, by decide, by decide⟩

/-- Claim C1 (amended): password_hash admission checks only the PRESENCE
of the password key: an absent key is rejected with 400 before any job
exists, but a present key of any type — string or not — is admitted; a
non-string password only fails later, inside the worker executor, with
the invalid-password-field error. -/
theorem C1_theorem (payload : Option GoMap) :
    (mapLookup payload "password" = none →
      handleSubmitJob "password_hash" payload =
        Admission.badRequest "Missing password field in payload") ∧
    (∀ v, mapLookup payload "password" = some v →
      handleSubmitJob "password_hash" payload =
        Admission.accepted "password_hash" payload) ∧
    (∀ v, mapLookup payload "password" = some v → (∀ s, v ≠ GoValue.str s) →
      processPasswordHash payload = Exec.err "invalid password field") := by
  refine ⟨?_, ?_, ?_⟩
  · intro h
    simp [handleSubmitJob, h]
  · intro v h
    simp [handleSubmitJob, h]
  · intro v h hv
    cases v with
    | str s => exact absurd rfl (hv s)
    | num q => simp [processPasswordHash, h]
    | goInt n => simp [processPasswordHash, h]
    | boolean b => simp [processPasswordHash, h]
    | null => simp [processPasswordHash, h]

theorem C1_witness :
    (handleSubmitJob "password_hash" (some []) =
      Admission.badRequest "Missing password field in payload") ∧
    (handleSubmitJob "password_hash" (some [("password", GoValue.boolean true)]) =
      Admission.accepted "password_hash" (some [("password", GoValue.boolean true)])) ∧
    (processPasswordHash (some [("password", GoValue.boolean true)]) =
      Exec.err "invalid password field") :=
  ⟨(C1_theorem (some [])).1 (by decide),
    (C1_theorem (some [("password", GoValue.boolean true)])).2.1
      (GoValue.boolean true) (by decide),
    (C1_theorem (some [("password", GoValue.boolean true)])).2.2
      (GoValue.boolean true) (by decide)
      (fun s hs => GoValue.noConfusion hs)⟩

/-- Claim C1, the claim as frozen, is false: a payload whose password
field is present but numeric (not a string) is admitted — the handler
returns the accepted outcome and the job is enqueued — instead of
failing with InvalidRequest; the executor later rejects it. -/
theorem C1_counterexample :
    handleSubmitJob "password_hash" (some [("password", GoValue.num 123)]) =
      Admission.accepted "password_hash" (some [("password", GoValue.num 123)]) ∧
    processPasswordHash (some [("password", GoValue.num 123)]) =
      Exec.err "invalid password field" := by
  refine ⟨by decide, by decide⟩

/-- Claim C7 (amended): for a password_hash job the supplied numeric
cost is first converted with Go `int(...)` (truncation toward zero), and
it is that converted integer being outside [4,31] that resets the
effective cost to the default 10 — silently, not as a rejection; a
supplied non-integer cost in (31,32) truncates to 31 and is used as 31.
On every successful execution the result carries verified = true, a
positive hash_length, and the effective cost. -/
theorem C7_theorem :
    (∀ (payload : Option GoMap) (q : ℚ),
      mapLookup payload "cost" = some (GoValue.num q) →
      goTrunc q < 4 ∨ 31 < goTrunc q →
      effectiveCost payload = 10) ∧
    (∀ (payload : Option GoMap) (r : HashResult),
      processPasswordHash payload = Exec.ok r →
        r.verified = true ∧ 0 < r.hash_length ∧ r.cost = effectiveCost payload) := by
  constructor
  · intro payload q hq hout
    simp [effectiveCost, hq, hout]
  · intro payload r h
    unfold processPasswordHash at h
    cases hp : mapLookup payload "password" with
    | none =>
      rw [hp] at h
      exact absurd h (by simp)
    | some v =>
      cases v with
      | str password =>
        rw [hp] at h
        unfold bcryptGenerateFromPassword at h
        dsimp only at h
        by_cases hlen : 72 < password.utf8ByteSize
        · rw [if_pos hlen] at h
          simp at h
        · rw [if_neg hlen] at h
          dsimp only at h
          have hcmp : bcryptCompareHashAndPassword
              { cost := effectiveCost payload, source := password } password = true := by
            simp [bcryptCompareHashAndPassword]
          rw [if_pos hcmp] at h
          injection h with h2
          rw [← h2]
          exact ⟨rfl, by simp [bcryptHashLen], rfl⟩
      | num q =>
        rw [hp] at h
        exact absurd h (by simp)
      | goInt n =>
        rw [hp] at h
        exact absurd h (by simp)
      | boolean b =>
        rw [hp] at h
        exact absurd h (by simp)
      | null =>
        rw [hp] at h
        exact absurd h (by simp)

theorem C7_witness :
    effectiveCost (some [("cost", GoValue.num 100)]) = 10 ∧
    ((HashResult.mk 60 10 "bcrypt" true).verified = true ∧
      0 < (HashResult.mk 60 10 "bcrypt" true).hash_length ∧
      (HashResult.mk 60 10 "bcrypt" true).cost =
        effectiveCost (some [("password", GoValue.str "pw")])) :=
  ⟨C7_theorem.1 (some [("cost", GoValue.num 100)]) 100 (by decide) (by decide),
    C7_theorem.2 (some [("password", GoValue.str "pw")])
      (HashResult.mk 60 10 "bcrypt" true) (by decide)⟩

/-- Claim C7, the claim as frozen, is false: the supplied numeric cost
63/2 = 31.5 lies outside [4,31], yet the effective cost used for hashing
is 31 (the truncation of 31.5), not the default 10. -/
theorem C7_counterexample :
    processPasswordHash
        (some [("password", GoValue.str "pw"), ("cost", GoValue.num (63 / 2))]) =
      Exec.ok { hash_length := 60, cost := 31, algorithm := "bcrypt",
                verified := true } ∧
    ¬ ((4 : ℚ) ≤ 63 / 2 ∧ (63 : ℚ) / 2 ≤ 31) ∧
    (31 : ℤ) ≠ 10 := by
  refine ⟨?_, by norm_num, by decide⟩
  have h1 : goTrunc ((63 : ℚ) / 2) = 31 := by norm_num [goTrunc]
  simp [processPasswordHash, mapLookup, effectiveCost, List.lookup, h1,
    bcryptGenerateFromPassword, bcryptCompareHashAndPassword, bcryptHashLen]
  decide

/- Helper lemmas for claim C9. -/

theorem string_append_left_cancel (s t u : String) (h : s ++ t = s ++ u) :
    t = u := by
  have hd := congrArg String.data h
  simp only [String.data_append] at hd
  have h2 := List.append_cancel_left hd
  cases t with
  | mk td =>
    cases u with
    | mk ud => exact congrArg String.mk (by simpa using h2)

/-- The 36 characters of the identifier alphabet are pairwise distinct,
so indexing into it is injective on indices below 36. -/
theorem letters_fin_inj : ∀ x y : Fin 36,
    letters.toList.getD x.val ' ' = letters.toList.getD y.val ' ' → x = y := by
  decide

theorem letters_index_inj (a b : ℕ) (ha : a < 36) (hb : b < 36)
    (h : letters.toList.getD a ' ' = letters.toList.getD b ' ') : a = b :=
  congrArg Fin.val (letters_fin_inj ⟨a, ha⟩ ⟨b, hb⟩ h)

/-- Two 6-byte suffixes agree exactly when the per-byte clock readings
agree modulo 36 at every position. -/
theorem randString_eq_iff (n1 n2 : ℕ → ℕ) :
    randString n1 6 = randString n2 6 ↔
      ∀ i < 6, (n1 i + i) % 36 = (n2 i + i) % 36 := by
  unfold randString
  rw [String.ext_iff, show List.range 6 = [0, 1, 2, 3, 4, 5] from rfl,
    show letters.length = 36 from rfl]
  simp only [List.map_cons, List.map_nil, List.cons.injEq, and_true]
  constructor
  · rintro ⟨h0, h1, h2, h3, h4, h5⟩ i hi
    interval_cases i
    · exact letters_index_inj _ _ (Nat.mod_lt _ (by omega)) (Nat.mod_lt _ (by omega)) h0
    · exact letters_index_inj _ _ (Nat.mod_lt _ (by omega)) (Nat.mod_lt _ (by omega)) h1
    · exact letters_index_inj _ _ (Nat.mod_lt _ (by omega)) (Nat.mod_lt _ (by omega)) h2
    · exact letters_index_inj _ _ (Nat.mod_lt _ (by omega)) (Nat.mod_lt _ (by omega)) h3
    · exact letters_index_inj _ _ (Nat.mod_lt _ (by omega)) (Nat.mod_lt _ (by omega)) h4
    · exact letters_index_inj _ _ (Nat.mod_lt _ (by omega)) (Nat.mod_lt _ (by omega)) h5
  · intro h
    refine ⟨?_, ?_, ?_, ?_, ?_, ?_⟩ <;>
      exact congrArg (fun j => letters.toList.getD j ' ') (h _ (by omega))

/-- Claim C9 (amended): within one second, identifiers of two NewJob
calls coincide exactly when their six nanosecond clock readings agree
modulo 36 position-wise; the suffix is a pure function of the clock, not
an independent random source, so uniqueness across sequential
constructions in the same second is NOT guaranteed — distinct calls
whose readings are congruent modulo 36 (for example a clock that
advanced by exactly 36ns between calls) produce the same identifier. -/
theorem C9_theorem (jobType : String) (payload : Option GoMap)
    (ts : String) (n1 n2 : ℕ → ℕ) :
    (NewJob jobType payload ts n1).id = (NewJob jobType payload ts n2).id ↔
      ∀ i < 6, (n1 i + i) % 36 = (n2 i + i) % 36 := by
  constructor
  · intro h
    exact (randString_eq_iff n1 n2).mp
      (string_append_left_cancel (ts ++ "-") (randString n1 6) (randString n2 6) h)
  · intro h
    exact congrArg (fun r => ts ++ "-" ++ r) ((randString_eq_iff n1 n2).mpr h)

/-- Claim C9, the claim as frozen, is false: two distinct NewJob calls
in the same second — the first observing clock reading 0 for all six
suffix bytes, the second observing 36 (the clock DID advance between the
calls) — generate the same identifier. -/
theorem C9_counterexample :
    (NewJob "report_generation" none "20251011120000" (fun _ => 0)).id =
      (NewJob "report_generation" none "20251011120000" (fun _ => 36)).id ∧
    (fun _ => (0 : ℕ)) 0 ≠ (fun _ => (36 : ℕ)) 0 :=
  ⟨by decide, by decide⟩

theorem C9_witness :
    (NewJob "password_hash" none "20260101000000" (fun _ => 5)).id =
      (NewJob "password_hash" none "20260101000000" (fun _ => 41)).id :=
  have t := C9_theorem "password_hash" none "20260101000000"
    (fun _ => 5) (fun _ => 41)
  t.mpr (by decide)

end FluxEngine
